import Mathlib

/-!
Verification of the PFH-OSNet repository core:
the omni-scale network in torchreid/models/pfh_osnet.py and the
training engine in torchreid/engine/image/triplet.py.

The tensor substrate (convolutions, batch and instance normalization,
the sigmoid and the L2 normalization of torch.nn.functional, and the
loss criteria) is external to the repository; it is embedded as
function-valued parameters of the module records.  The control flow,
wiring, channel widths and configuration handling of the repository
itself are translated literally from the source.

Feature vectors are channel-indexed lists of rationals; a spatial
tensor for one sample is a list of channel planes, each plane a list
of rows of rationals.  Channel counts are carried in the types.
-/

namespace PFH

/-- A feature vector of width n (one sample, n channels). -/
abbrev Vec (n : Nat) : Type := { l : List ℚ // l.length = n }

/-- A spatial tensor of c channel planes (one sample); each plane is a
list of rows of rationals.  Spatial extent is not tracked in the type. -/
abbrev Chw (c : Nat) : Type := { t : List (List (List ℚ)) // t.length = c }

/-- The all-zero feature vector of width n. -/
def constVec (n : Nat) : Vec n := ⟨List.replicate n 0, by simp⟩

/-- A c-channel tensor whose planes are the single row [0]. -/
def constChw (c : Nat) : Chw c := ⟨List.replicate c [[0]], by simp⟩

/-- Map a scalar function over a feature vector. -/
def vmap {n : Nat} (f : ℚ → ℚ) (v : Vec n) : Vec n :=
  ⟨v.val.map f, by simp [v.prop]⟩

/-- Concatenation of feature vectors along the feature axis
(torch.cat with dim equal to 1, per sample). -/
def vappend {m n : Nat} (a : Vec m) (b : Vec n) : Vec (m + n) :=
  ⟨a.val ++ b.val, by simp [a.prop, b.prop]⟩

/-- Rectified linear unit on a scalar. -/
def reluQ (q : ℚ) : ℚ := max 0 q

/-- ReLU applied elementwise to a feature vector. -/
def reluVec {n : Nat} (v : Vec n) : Vec n := vmap reluQ v

/-- ReLU applied elementwise to a spatial tensor. -/
def reluChw {c : Nat} (t : Chw c) : Chw c :=
  ⟨t.val.map (fun plane => plane.map (fun row => row.map reluQ)), by simp [t.prop]⟩

/-- Elementwise sum of two spatial tensors (the + of torch). -/
def addChw {c : Nat} (a b : Chw c) : Chw c :=
  ⟨List.zipWith (fun pa pb => List.zipWith (fun ra rb => List.zipWith (· + ·) ra rb) pa pb)
      a.val b.val,
    by simp [a.prop, b.prop]⟩

/-- Sum of all entries of one channel plane. -/
def planeSum (p : List (List ℚ)) : ℚ := (p.map List.sum).sum

/-- Number of entries of one channel plane. -/
def planeCount (p : List (List ℚ)) : Nat := (p.map List.length).sum

/-- Mean of one channel plane (global average pooling of one channel). -/
def planeAvg (p : List (List ℚ)) : ℚ := planeSum p / (planeCount p : ℚ)

/-- nn.AdaptiveAvgPool2d(1) followed by the view flattening of the
forward pass: every channel plane is averaged to one scalar. -/
def gap {c : Nat} (t : Chw c) : Vec c :=
  ⟨t.val.map planeAvg, by simp [t.prop]⟩

/-- Per-channel broadcast multiplication: channel i of t is scaled by
entry i of g (the `input * x` of ChannelGate.forward). -/
def scaleChannels {c : Nat} (t : Chw c) (g : Vec c) : Chw c :=
  ⟨List.zipWith (fun plane q => plane.map (fun row => row.map (· * q))) t.val g.val,
    by simp [t.prop, g.prop]⟩

/-- A feature vector presented as a tensor with 1x1 spatial extent
(the shape ChannelGate.forward returns when return_gates is set). -/
def gatesChw {c : Nat} (v : Vec c) : Chw c :=
  ⟨v.val.map (fun q => [[q]]), by simp [v.prop]⟩

/-- The external tensor substrate: torch functions the repository calls
but does not define.  sigmoid is the nn.Sigmoid activation;
normalize is F.normalize with p equal to 2 along the feature axis. -/
structure Torch where
  sigmoid : ℚ → ℚ
  normalize : (n : Nat) → Vec n → Vec n

/-!
## ChannelGate (pfh_osnet.py lines 151-201)
-/

/-- The non-identity gate activations ChannelGate can store.  The
source stores None for the "linear" choice, so the stored field below
is an Option of this type. -/
inductive ActFn where
  | sigmoid
  | relu
  deriving DecidableEq, Repr

/-- Parameters of one ChannelGate instance with num_gates left at its
default (num_gates equal to in_channels, the only form the repository
instantiates).  fc1 and fc2 are the two learned 1x1 convolutions,
acting on pooled channel vectors; norm1 is the optional LayerNorm. -/
structure GateM (c : Nat) where
  red : Nat
  fc1 : Vec c → Vec red
  norm1 : Option (Vec red → Vec red)
  fc2 : Vec red → Vec c
  gate_activation : Option ActFn
  return_gates : Bool

/-- ChannelGate.__init__ (lines 153-187): stores the submodules and
maps the gate_activation string to a stored activation, raising
RuntimeError on any unrecognized string.  The learned weight functions
are supplied by the caller (parameter allocation is external). -/
def channelGateInit {c : Nat} (reduction : Nat)
    (fc1 : Vec c → Vec (c / reduction))
    (norm1f : Vec (c / reduction) → Vec (c / reduction))
    (fc2 : Vec (c / reduction) → Vec c)
    (return_gates layer_norm : Bool)
    (gate_activation : String) : Except String (GateM c) :=
  let norm1 : Option (Vec (c / reduction) → Vec (c / reduction)) :=
    if layer_norm then some norm1f else none
  if gate_activation = "sigmoid" then
    Except.ok ⟨c / reduction, fc1, norm1, fc2, some ActFn.sigmoid, return_gates⟩
  else if gate_activation = "relu" then
    Except.ok ⟨c / reduction, fc1, norm1, fc2, some ActFn.relu, return_gates⟩
  else if gate_activation = "linear" then
    Except.ok ⟨c / reduction, fc1, norm1, fc2, none, return_gates⟩
  else
    Except.error ("Unknown gate activation: " ++ gate_activation)

/-- Application of a stored gate activation to the gate vector. -/
def applyActFn (tor : Torch) {n : Nat} (a : ActFn) (v : Vec n) : Vec n :=
  match a with
  | ActFn.sigmoid => vmap tor.sigmoid v
  | ActFn.relu => reluVec v

/-- ChannelGate.forward (lines 189-201): pool, fc1, optional norm,
ReLU, fc2, optional activation; return the gates when return_gates is
set, else the input scaled per channel by the gates. -/
def channelGateForward (tor : Torch) {c : Nat} (g : GateM c) (x : Chw c) : Chw c :=
  let inp := x
  let v := gap x
  let v := g.fc1 v
  let v := match g.norm1 with
    | some f => f v
    | none => v
  let v := reluVec v
  let v := g.fc2 v
  let v := match g.gate_activation with
    | some a => applyActFn tor a v
    | none => v
  if g.return_gates then gatesChw v else scaleChannels inp v

/-!
## OSBlock (pfh_osnet.py lines 204-254)
-/

/-- The channel-width configuration OSBlock.__init__ derives from its
arguments: mid is the bottleneck width, downsample records whether a
1x1-linear projection of the identity was allocated, useIN whether
instance normalization was requested. -/
structure OSBlockArch where
  cin : Nat
  cout : Nat
  mid : Nat
  downsample : Bool
  useIN : Bool
  deriving DecidableEq, Repr

/-- The width arithmetic of OSBlock.__init__ (line 213):
mid_channels is the floor quotient of out_channels by
bottleneck_reduction. -/
def osblockArchOf (cin cout red : Nat) (useIN : Bool) : OSBlockArch :=
  { cin := cin
    cout := cout
    mid := cout / red
    downsample := cin != cout
    useIN := useIN }

/-- OSBlock.__init__ (lines 206-238).  No statement of the body can
raise: mid_channels is computed by floor division, the submodules
(Conv1x1, LightConv3x3, ChannelGate with its default sigmoid
activation, Conv1x1Linear, InstanceNorm2d) are allocated
unconditionally, so construction always succeeds. -/
def osblockInit (cin cout : Nat) (useIN : Bool) (bottleneck_reduction : Nat) :
    Except String OSBlockArch :=
  Except.ok (osblockArchOf cin cout bottleneck_reduction useIN)

/-- Weights of one OSBlock instance.  The conv fields are the learned
submodules as functions; gate is the single ChannelGate allocated at
line 231; downsample is present exactly when in and out widths differ
(lines 233-235), which the proof field dsNone records; IN is the
optional instance normalization. -/
structure OSBlockM (cin cout mid : Nat) where
  conv1 : Chw cin → Chw mid
  conv2a : Chw mid → Chw mid
  conv2b : Chw mid → Chw mid
  conv2c : Chw mid → Chw mid
  conv2d : Chw mid → Chw mid
  gate : GateM mid
  conv3 : Chw mid → Chw cout
  downsample : Option (Chw cin → Chw cout)
  dsNone : downsample = none → cin = cout
  IN : Option (Chw cout → Chw cout)

/-- The residual branch of OSBlock.forward (lines 249-250): the
identity is projected when a downsample module exists, else passed
through unchanged (in which case in and out widths coincide). -/
def residualIdentity {cin cout : Nat} (ds : Option (Chw cin → Chw cout))
    (hds : ds = none → cin = cout) (x : Chw cin) : Chw cout :=
  match ds, hds with
  | some d, _ => d x
  | none, hds => hds rfl ▸ x

/-- Application of an optional normalization module (the
`if self.IN is not None` step of OSBlock.forward, lines 252-253). -/
def applyIN {c : Nat} (f : Option (Chw c → Chw c)) (t : Chw c) : Chw c :=
  match f with
  | some g => g t
  | none => t

/-- OSBlock.forward (lines 240-254), translated statement by
statement: bottleneck, four branches, one shared gate applied to each
branch output, left-associated sum, projection, residual (projected
when downsample exists), optional IN, final ReLU; returns the
activated output together with the pre-projection fused sum x2. -/
def osblockForward (tor : Torch) {cin cout mid : Nat}
    (m : OSBlockM cin cout mid) (x : Chw cin) : Chw cout × Chw mid :=
  let x1 := m.conv1 x
  let x2a := m.conv2a x1
  let x2b := m.conv2b x1
  let x2c := m.conv2c x1
  let x2d := m.conv2d x1
  let x2 := addChw (addChw (addChw (channelGateForward tor m.gate x2a)
    (channelGateForward tor m.gate x2b)) (channelGateForward tor m.gate x2c))
    (channelGateForward tor m.gate x2d)
  let x3 := m.conv3 x2
  let identity : Chw cout := residualIdentity m.downsample m.dsNone x
  let out := addChw x3 identity
  let out := applyIN m.IN out
  (reluChw out, x2)

/-- The gated multi-scale fused sum x2 of OSBlock.forward (line 247),
as its own definition. -/
def osblockFused (tor : Torch) {cin cout mid : Nat}
    (m : OSBlockM cin cout mid) (x : Chw cin) : Chw mid :=
  let x1 := m.conv1 x
  addChw (addChw (addChw (channelGateForward tor m.gate (m.conv2a x1))
    (channelGateForward tor m.gate (m.conv2b x1)))
    (channelGateForward tor m.gate (m.conv2c x1)))
    (channelGateForward tor m.gate (m.conv2d x1))

/-- The residual sum of OSBlock.forward before the optional instance
normalization (the value of out at line 251). -/
def osblockPreIN (tor : Torch) {cin cout mid : Nat}
    (m : OSBlockM cin cout mid) (x : Chw cin) : Chw cout :=
  addChw (m.conv3 (osblockFused tor m x)) (residualIdentity m.downsample m.dsNone x)

/-- The gate parameters OSBlock.forward applies to the four branch
outputs at line 247: the field self.gate, four times. -/
def branchGates {cin cout mid : Nat} (m : OSBlockM cin cout mid) :
    GateM mid × GateM mid × GateM mid × GateM mid :=
  (m.gate, m.gate, m.gate, m.gate)

/-- The independence reading of the spec: every quadruple of gate
parameters can be realized as the gates the four branches of some
OSBlock receive. -/
def gatesIndependent (cin cout mid : Nat) : Prop :=
  ∀ gs : GateM mid × GateM mid × GateM mid × GateM mid,
    ∃ m : OSBlockM cin cout mid, branchGates m = gs

/-- Modelled from the spec: an OSBlock variant whose four branches are
gated by ChannelGates of shared architecture but independent
parameters per branch, as the spec describes step 3 of the block.
Used only for comparison with the implemented block. -/
structure OSBlockIndepM (cin cout mid : Nat) where
  conv1 : Chw cin → Chw mid
  conv2a : Chw mid → Chw mid
  conv2b : Chw mid → Chw mid
  conv2c : Chw mid → Chw mid
  conv2d : Chw mid → Chw mid
  gate_a : GateM mid
  gate_b : GateM mid
  gate_c : GateM mid
  gate_d : GateM mid
  conv3 : Chw mid → Chw cout
  downsample : Option (Chw cin → Chw cout)
  dsNone : downsample = none → cin = cout
  IN : Option (Chw cout → Chw cout)

/-- Modelled from the spec: forward pass of the independent-gate
variant — gate branch k with its own ChannelGate, sum the four gated
results, project, add residual, optional IN, final ReLU. -/
def osblockForwardIndep (tor : Torch) {cin cout mid : Nat}
    (m : OSBlockIndepM cin cout mid) (x : Chw cin) : Chw cout × Chw mid :=
  let x1 := m.conv1 x
  let x2 := addChw (addChw (addChw (channelGateForward tor m.gate_a (m.conv2a x1))
    (channelGateForward tor m.gate_b (m.conv2b x1)))
    (channelGateForward tor m.gate_c (m.conv2c x1)))
    (channelGateForward tor m.gate_d (m.conv2d x1))
  let x3 := m.conv3 x2
  let identity : Chw cout := residualIdentity m.downsample m.dsNone x
  let out := addChw x3 identity
  let out := applyIN m.IN out
  (reluChw out, x2)

/-- The implemented block seen as an independent-gate block: all four
per-branch gates are the one shared ChannelGate. -/
def tieGates {cin cout mid : Nat} (m : OSBlockM cin cout mid) :
    OSBlockIndepM cin cout mid :=
  { conv1 := m.conv1
    conv2a := m.conv2a
    conv2b := m.conv2b
    conv2c := m.conv2c
    conv2d := m.conv2d
    gate_a := m.gate
    gate_b := m.gate
    gate_c := m.gate
    gate_d := m.gate
    conv3 := m.conv3
    downsample := m.downsample
    dsNone := m.dsNone
    IN := m.IN }

/-!
## OSNet (pfh_osnet.py lines 260-420)

The stage structure of OSNet.__init__ is hardcoded: conv2_0 is
OSBlock(64, 256), conv2_1 OSBlock(256, 256), conv3_0
OSBlock(256, 384), conv3_1 OSBlock(384, 384), conv4_0
OSBlock(384, 512), conv4_1 OSBlock(512, 512); the auxiliary taps
conv_a, conv_b, conv_c have widths 64, 96, 128 (the bottleneck widths
of conv2_1, conv3_1, conv4_1), and the four head normalizations and
classifiers have widths 512, 64, 96, 128.
-/

/-- Weights of one OSNet instance with the hardcoded stage widths of
the source and nc identity classes.  Parameter-free layers (maxpool,
the two stage average pools) appear as function fields as well since
their action on spatial extent is outside the channel-typed model. -/
structure OSNetM (nc : Nat) where
  conv1 : Chw 3 → Chw 64
  maxpool : Chw 64 → Chw 64
  conv2_0 : OSBlockM 64 256 64
  conv2_1 : OSBlockM 256 256 64
  conv2_2 : Chw 256 → Chw 256
  conv2_3 : Chw 256 → Chw 256
  conv3_0 : OSBlockM 256 384 96
  conv3_1 : OSBlockM 384 384 96
  conv3_2 : Chw 384 → Chw 384
  conv3_3 : Chw 384 → Chw 384
  conv4_0 : OSBlockM 384 512 128
  conv4_1 : OSBlockM 512 512 128
  conv_a : Chw 64 → Chw 64
  conv_b : Chw 96 → Chw 96
  conv_c : Chw 128 → Chw 128
  conv5 : Chw 512 → Chw 512
  bn : Vec 512 → Vec 512
  bn_a : Vec 64 → Vec 64
  bn_b : Vec 96 → Vec 96
  bn_c : Vec 128 → Vec 128
  classifier : Vec 512 → Vec nc
  classifier_a : Vec 64 → Vec nc
  classifier_b : Vec 96 → Vec nc
  classifier_c : Vec 128 → Vec nc
  loss : String

/-- OSNet.featuremaps (lines 355-378): stem, three stages with the
auxiliary x2 taps a1, b1, c1 taken from the second block of each
stage, per-tap 1x1 refinements, conv5 on the main path. -/
def osnetFeaturemaps (tor : Torch) {nc : Nat} (m : OSNetM nc) (x0 : Chw 3) :
    Chw 512 × Chw 64 × Chw 96 × Chw 128 :=
  let x := m.conv1 x0
  let x := m.maxpool x
  let p0 := osblockForward tor m.conv2_0 x
  let p1 := osblockForward tor m.conv2_1 p0.1
  let a1 := p1.2
  let x := m.conv2_2 p1.1
  let x := m.conv2_3 x
  let q0 := osblockForward tor m.conv3_0 x
  let q1 := osblockForward tor m.conv3_1 q0.1
  let b1 := q1.2
  let x := m.conv3_2 q1.1
  let x := m.conv3_3 x
  let r0 := osblockForward tor m.conv4_0 x
  let r1 := osblockForward tor m.conv4_1 r0.1
  let c1 := r1.2
  let a1 := m.conv_a a1
  let b1 := m.conv_b b1
  let c1 := m.conv_c c1
  let x := m.conv5 r1.1
  (x, a1, b1, c1)

/-- The possible results of OSNet.forward. -/
inductive OSNetOut (nc : Nat) where
  | fmaps (c : Chw 128)
  | evalDesc (d : Vec (512 + 64 + 96 + 128))
  | softmaxOut (y : Vec nc × Vec nc × Vec nc × Vec nc)
  | tripletOut (y : Vec nc × Vec nc × Vec nc × Vec nc)
      (v : Vec 512 × Vec 64 × Vec 96 × Vec 128)

/-- OSNet.forward (lines 380-420): short-circuit on
return_featuremaps; pool and flatten the four maps; keep the
pre-normalization vectors in v_; apply the four head batch
normalizations; in evaluation mode L2-normalize the four normalized
vectors and concatenate them; in training mode classify the
normalized vectors and dispatch on the loss mode, raising KeyError on
an unrecognized mode. -/
def osnetForward (tor : Torch) {nc : Nat} (m : OSNetM nc) (training : Bool)
    (x : Chw 3) (return_featuremaps : Bool) : Except String (OSNetOut nc) :=
  let fm := osnetFeaturemaps tor m x
  if return_featuremaps then Except.ok (OSNetOut.fmaps fm.2.2.2) else
  let v := gap fm.1
  let va := gap fm.2.1
  let vb := gap fm.2.2.1
  let vc := gap fm.2.2.2
  let vPre := (v, va, vb, vc)
  let v2 := m.bn v
  let va2 := m.bn_a va
  let vb2 := m.bn_b vb
  let vc2 := m.bn_c vc
  if training = false then
    Except.ok (OSNetOut.evalDesc (vappend (vappend (vappend
      (tor.normalize 512 v2) (tor.normalize 64 va2))
      (tor.normalize 96 vb2)) (tor.normalize 128 vc2)))
  else
    let y := (m.classifier v2, m.classifier_a va2, m.classifier_b vb2,
      m.classifier_c vc2)
    if m.loss = "softmax" then Except.ok (OSNetOut.softmaxOut y)
    else if m.loss = "triplet" then Except.ok (OSNetOut.tripletOut y vPre)
    else Except.error ("Unsupported loss: " ++ m.loss)

/-- The inference descriptor as the spec describes it: pool each of
the four maps, batch-normalize each with its head normalization,
L2-normalize each vector independently, concatenate along the feature
axis. -/
def osnetEvalDescriptor (tor : Torch) {nc : Nat} (m : OSNetM nc) (x : Chw 3) :
    Vec (512 + 64 + 96 + 128) :=
  let fm := osnetFeaturemaps tor m x
  vappend (vappend (vappend
    (tor.normalize 512 (m.bn (gap fm.1)))
    (tor.normalize 64 (m.bn_a (gap fm.2.1))))
    (tor.normalize 96 (m.bn_b (gap fm.2.2.1))))
    (tor.normalize 128 (m.bn_c (gap fm.2.2.2)))

/-!
## OSNet.__init__ at the architecture level (lines 261-310, 515-527)
-/

/-- Python list indexing: channels[i], failing like the source would
on an out-of-range index. -/
def pyItem (l : List Nat) (i : Nat) : Except String Nat :=
  match l.get? i with
  | some v => Except.ok v
  | none => Except.error "IndexError: list index out of range"

/-- Hyperparameters of the stem ConvLayer (line 276). -/
structure ConvLayerArch where
  cin : Nat
  cout : Nat
  k : Nat
  stride : Nat
  padding : Nat
  useIN : Bool
  deriving DecidableEq, Repr

/-- The layer hyperparameters OSNet.__init__ allocates.  1x1
convolutions are recorded as (in, out) width pairs, pooling layers as
their fixed (kernel, stride) or (kernel, stride, padding) settings,
the 1D batch normalizations as their widths. -/
structure OSNetArch where
  conv1 : ConvLayerArch
  maxpool : Nat × Nat × Nat
  conv2_0 : OSBlockArch
  conv2_1 : OSBlockArch
  conv2_2 : Nat × Nat
  conv2_3 : Nat × Nat
  conv3_0 : OSBlockArch
  conv3_1 : OSBlockArch
  conv3_2 : Nat × Nat
  conv3_3 : Nat × Nat
  conv4_0 : OSBlockArch
  conv4_1 : OSBlockArch
  conv_a : Nat × Nat
  conv_b : Nat × Nat
  conv_c : Nat × Nat
  conv5 : Nat × Nat
  classifier : Nat × Nat
  classifier_a : Nat × Nat
  classifier_b : Nat × Nat
  classifier_c : Nat × Nat
  bn : Nat
  bn_a : Nat
  bn_b : Nat
  bn_c : Nat
  loss : String
  deriving DecidableEq, Repr

/-- The architecture OSNet.__init__ builds once its assertions pass:
only channels[0] (stem width) and channels[3] (conv5 width) flow into
any layer; every other width is a literal of the source. -/
def osnetArchOf (num_classes c0 c3 : Nat) (loss : String) (useIN : Bool) :
    OSNetArch :=
  { conv1 := ⟨3, c0, 7, 2, 3, useIN⟩
    maxpool := (3, 2, 1)
    conv2_0 := osblockArchOf 64 256 4 useIN
    conv2_1 := osblockArchOf 256 256 4 useIN
    conv2_2 := (256, 256)
    conv2_3 := (2, 2)
    conv3_0 := osblockArchOf 256 384 4 useIN
    conv3_1 := osblockArchOf 384 384 4 useIN
    conv3_2 := (384, 384)
    conv3_3 := (2, 2)
    conv4_0 := osblockArchOf 384 512 4 useIN
    conv4_1 := osblockArchOf 512 512 4 useIN
    conv_a := (64, 64)
    conv_b := (96, 96)
    conv_c := (128, 128)
    conv5 := (c3, c3)
    classifier := (512, num_classes)
    classifier_a := (64, num_classes)
    classifier_b := (96, num_classes)
    classifier_c := (128, num_classes)
    bn := 512
    bn_a := 64
    bn_b := 96
    bn_c := 128
    loss := loss }

/-- OSNet.__init__ (lines 261-310): the two length assertions (with
Python arithmetic, len(channels) - 1 over the integers), the reads of
channels[0] and channels[1 + 2], then the hardcoded module
allocations.  blocks and layers are consumed by the assertions only. -/
def osnetInitArch {α : Type} (num_classes : Nat) (blocks : List α)
    (layers : List Nat) (channels : List Nat) (loss : String) (useIN : Bool) :
    Except String OSNetArch :=
  if (blocks.length : Int) ≠ (layers.length : Int) then
    Except.error "AssertionError: num_blocks == len(layers)"
  else if (blocks.length : Int) ≠ (channels.length : Int) - 1 then
    Except.error "AssertionError: num_blocks == len(channels) - 1"
  else
    match pyItem channels 0, pyItem channels 3 with
    | Except.ok c0, Except.ok c3 =>
        Except.ok (osnetArchOf num_classes c0 c3 loss useIN)
    | Except.error e, _ => Except.error e
    | _, Except.error e => Except.error e

/-!
## ImageTripletEngine (triplet.py)
-/

/-- The feature quadruple the model returns in triplet mode (the list
[v, va, vb, vc] of the source, with the widths of the four heads). -/
abbrev Feat4 : Type := Vec 512 × Vec 64 × Vec 96 × Vec 128

/-- The logits quadruple of the four classifier heads. -/
abbrev Out4 (nc : Nat) : Type := Vec nc × Vec nc × Vec nc × Vec nc

/-- Modelled from the spec: the parent Engine class (torchreid engine,
not under src) provides _compute_loss, which evaluates the given
criterion on the given inputs and identity labels. -/
def computeLoss {α π : Type} (criterion : α → π → ℚ) (x : α) (pids : π) : ℚ :=
  criterion x pids

/-- State of one ImageTripletEngine relevant to loss composition:
the three weights, the triplet and cross-entropy criteria, and the
four center-loss criteria, present only when they were constructed. -/
structure Engine (nc : Nat) (π : Type) where
  weight_t : ℚ
  weight_x : ℚ
  weight_c : ℚ
  criterion_t : Feat4 → π → ℚ
  criterion_x : Out4 nc → π → ℚ
  center : Option ((Vec 512 → π → ℚ) × (Vec 64 → π → ℚ) ×
    (Vec 96 → π → ℚ) × (Vec 128 → π → ℚ))

/-- ImageTripletEngine.__init__ (triplet.py lines 15-50): store the
weights, build the triplet criterion from the margin and the
cross-entropy criterion from the class count and the label-smoothing
flag, and build the four center-loss criteria (feature widths 512,
64, 96, 128) only when weight_c is nonzero.  The external criterion
constructors TripletLoss, CrossEntropyLoss and CenterLoss are passed
in as functions. -/
def engineInit (nc : Nat) (π : Type) (num_train_pids : Nat)
    (margin weight_t weight_x weight_c : ℚ) (label_smooth : Bool)
    (mkTriplet : ℚ → Feat4 → π → ℚ)
    (mkCross : Nat → Bool → Out4 nc → π → ℚ)
    (mkCenter : (n : Nat) → Nat → Vec n → π → ℚ) : Engine nc π :=
  { weight_t := weight_t
    weight_x := weight_x
    weight_c := weight_c
    criterion_t := mkTriplet margin
    criterion_x := mkCross num_train_pids label_smooth
    center :=
      if weight_c ≠ 0 then
        some (mkCenter 512 num_train_pids, mkCenter 64 num_train_pids,
          mkCenter 96 num_train_pids, mkCenter 128 num_train_pids)
      else none }

/-- The loss composition of one batch of ImageTripletEngine.train
(triplet.py lines 85-102): triplet loss on the features, cross
entropy on the logits; when weight_c is nonzero also the four center
losses, one per head, summed; the total is the fixed linear
combination weight_t * loss_t + weight_x * loss_x +
weight_c * loss_c (with the vestigial weight_c reassignment of line
99 in the zero branch).  Reading the absent criterion_c attribute
would be an AttributeError, which engineInit makes unreachable. -/
def trainBatchLoss {nc : Nat} {π : Type} (e : Engine nc π)
    (outputs : Out4 nc) (features : Feat4) (pids : π) : Except String ℚ :=
  let loss_t := computeLoss e.criterion_t features pids
  let loss_x := computeLoss e.criterion_x outputs pids
  if e.weight_c ≠ 0 then
    match e.center with
    | some cs =>
        let loss_c := computeLoss cs.1 features.1 pids +
          computeLoss cs.2.1 features.2.1 pids +
          computeLoss cs.2.2.1 features.2.2.1 pids +
          computeLoss cs.2.2.2 features.2.2.2 pids
        Except.ok (e.weight_t * loss_t + e.weight_x * loss_x + e.weight_c * loss_c)
    | none => Except.error "AttributeError: criterion_c"
  else
    let weight_c : ℚ := 0
    let loss_c : ℚ := 0
    Except.ok (e.weight_t * loss_t + e.weight_x * loss_x + weight_c * loss_c)

/-- Modelled from the spec: open_specified_layers of torchreid.utils
(not under src) makes exactly the named layers trainable and freezes
every other layer. -/
def openSpecifiedLayers (layers : List String) (open_layers : List String) :
    List (String × Bool) :=
  layers.map (fun l => (l, decide (l ∈ open_layers)))

/-- Modelled from the spec: open_all_layers of torchreid.utils (not
under src) makes every layer trainable. -/
def openAllLayers (layers : List String) : List (String × Bool) :=
  layers.map (fun l => (l, true))

/-- The epoch-start freezing step of ImageTripletEngine.train
(triplet.py lines 66-71): freeze to the named set when
(epoch + 1) <= fixbase_epoch and open_layers is not None, else open
all layers.  Returns each layer name with its trainability. -/
def epochFreeze (epoch fixbase_epoch : Nat) (open_layers : Option (List String))
    (layers : List String) : List (String × Bool) :=
  if epoch + 1 ≤ fixbase_epoch ∧ open_layers ≠ none then
    openSpecifiedLayers layers (open_layers.getD [])
  else
    openAllLayers layers

/-- The reporting decisions of one loop body of
ImageTripletEngine.train: the progress line is printed when
(batch_idx + 1) % print_freq == 0 (line 112); the writer scalars are
emitted whenever a writer is present (line 134), keyed by
n_iter = epoch * num_batches + batch_idx (line 135). -/
structure BatchLog where
  progress : Bool
  writerKeys : List Nat
  deriving DecidableEq, Repr

/-- One loop body of the reporting logic of
ImageTripletEngine.train (lines 112-142). -/
def batchLog (writer : Bool) (epoch num_batches print_freq batch_idx : Nat) :
    BatchLog :=
  { progress := (batch_idx + 1) % print_freq == 0
    writerKeys := if writer then [epoch * num_batches + batch_idx] else [] }

/-- The reporting decisions of a whole epoch, in batch order. -/
def epochLog (writer : Bool) (epoch num_batches print_freq : Nat) :
    List BatchLog :=
  (List.range num_batches).map (batchLog writer epoch num_batches print_freq)

/-- The iteration counter of triplet.py line 135. -/
def nIter (epoch num_batches batch_idx : Nat) : Nat :=
  epoch * num_batches + batch_idx

/-!
## Concrete instances used to evaluate the definitions
-/

/-- A substrate whose sigmoid and L2 normalization are identities;
enough to exercise the wiring of the repository code. -/
def torC : Torch :=
  { sigmoid := fun q => q
    normalize := fun _ v => v }

/-- A one-channel tensor holding the single scalar q. -/
def litChw (q : ℚ) : Chw 1 := ⟨[[[q]]], rfl⟩

/-- Concrete one-channel input. -/
def xC1 : Chw 1 := litChw 1

/-- Concrete three-channel input image. -/
def xC3 : Chw 3 := constChw 3

/-- A one-channel gate whose second convolution always outputs q, with
the linear (identity) activation; it scales its input by q. -/
def gateConst1 (q : ℚ) : GateM 1 :=
  { red := 1
    fc1 := fun _ => ⟨[1], rfl⟩
    norm1 := none
    fc2 := fun _ => ⟨[q], rfl⟩
    gate_activation := none
    return_gates := false }

/-- A c-channel gate with constant weights, sigmoid activation and
the reduction 16 of the source default. -/
def constGate (c : Nat) : GateM c :=
  { red := c / 16
    fc1 := fun _ => constVec (c / 16)
    norm1 := none
    fc2 := fun _ => constVec c
    gate_activation := some ActFn.sigmoid
    return_gates := false }

/-- A width-changing OSBlock with constant weights (downsample
allocated, as in the source when widths differ). -/
def constBlockNe (cin cout mid : Nat) : OSBlockM cin cout mid :=
  { conv1 := fun _ => constChw mid
    conv2a := fun _ => constChw mid
    conv2b := fun _ => constChw mid
    conv2c := fun _ => constChw mid
    conv2d := fun _ => constChw mid
    gate := constGate mid
    conv3 := fun _ => constChw cout
    downsample := some (fun _ => constChw cout)
    dsNone := fun h => nomatch h
    IN := none }

/-- A width-preserving OSBlock with constant weights (no downsample,
as in the source when widths agree). -/
def constBlockEq (c mid : Nat) : OSBlockM c c mid :=
  { conv1 := fun _ => constChw mid
    conv2a := fun _ => constChw mid
    conv2b := fun _ => constChw mid
    conv2c := fun _ => constChw mid
    conv2d := fun _ => constChw mid
    gate := constGate mid
    conv3 := fun _ => constChw c
    downsample := none
    dsNone := fun _ => rfl
    IN := none }

/-- The OSBlock instance for the ReLU placement check: every
convolution is the identity, the gate scales by 1, and instance
normalization maps everything to the constant -1 tensor. -/
def mC4ce : OSBlockM 1 1 1 :=
  { conv1 := fun t => t
    conv2a := fun t => t
    conv2b := fun t => t
    conv2c := fun t => t
    conv2d := fun t => t
    gate := gateConst1 1
    conv3 := fun t => t
    downsample := none
    dsNone := fun _ => rfl
    IN := some (fun _ => litChw (-1)) }

/-- The same block without instance normalization. -/
def mOSB1 : OSBlockM 1 1 1 :=
  { conv1 := fun t => t
    conv2a := fun t => t
    conv2b := fun t => t
    conv2c := fun t => t
    conv2d := fun t => t
    gate := gateConst1 1
    conv3 := fun t => t
    downsample := none
    dsNone := fun _ => rfl
    IN := none }

/-- A concrete OSNet with constant weights, one identity class and
triplet loss mode. -/
def mC : OSNetM 1 :=
  { conv1 := fun _ => constChw 64
    maxpool := fun t => t
    conv2_0 := constBlockNe 64 256 64
    conv2_1 := constBlockEq 256 64
    conv2_2 := fun t => t
    conv2_3 := fun t => t
    conv3_0 := constBlockNe 256 384 96
    conv3_1 := constBlockEq 384 96
    conv3_2 := fun t => t
    conv3_3 := fun t => t
    conv4_0 := constBlockNe 384 512 128
    conv4_1 := constBlockEq 512 128
    conv_a := fun t => t
    conv_b := fun t => t
    conv_c := fun t => t
    conv5 := fun t => t
    bn := fun v => v
    bn_a := fun v => v
    bn_b := fun v => v
    bn_c := fun v => v
    classifier := fun _ => constVec 1
    classifier_a := fun _ => constVec 1
    classifier_b := fun _ => constVec 1
    classifier_c := fun _ => constVec 1
    loss := "triplet" }

/-- Concrete fc1 weight for a width-16 ChannelGate. -/
def gateFc1W : Vec 16 → Vec (16 / 16) := fun _ => constVec (16 / 16)

/-- Concrete norm1 weight for a width-16 ChannelGate. -/
def gateNorm1W : Vec (16 / 16) → Vec (16 / 16) := fun v => v

/-- Concrete fc2 weight for a width-16 ChannelGate. -/
def gateFc2W : Vec (16 / 16) → Vec 16 := fun _ => constVec 16

/-- Constant triplet criterion constructor for evaluating the engine. -/
def mkTripletW : ℚ → Feat4 → Unit → ℚ := fun _ _ _ => 2

/-- Constant cross-entropy criterion constructor. -/
def mkCrossW : Nat → Bool → Out4 0 → Unit → ℚ := fun _ _ _ _ => 3

/-- Constant center-loss criterion constructor. -/
def mkCenterW : (n : Nat) → Nat → Vec n → Unit → ℚ := fun _ _ _ _ => 5

/-- Concrete zero logits for the engine evaluation. -/
def out0W : Out4 0 := (constVec 0, constVec 0, constVec 0, constVec 0)

/-- Concrete zero features for the engine evaluation. -/
def feat0W : Feat4 := (constVec 512, constVec 64, constVec 96, constVec 128)

/-!
## Claims
-/

/-- C3 (amended): OSBlock construction never fails; mid_channels is
the floor quotient of out_channels by bottleneck_reduction, which is
exact precisely when the division is exact. -/
theorem C3_osblock_init_floor_division (cin cout red : Nat) (useIN : Bool)
    (s : OSBlockArch) (h : osblockInit cin cout useIN red = Except.ok s) :
    s.mid = cout / red ∧ (red ∣ cout → s.mid * red = cout) := by
  have hs : s = osblockArchOf cin cout red useIN := by
    have h2 := h
    unfold osblockInit at h2
    exact (Except.ok.injEq _ _).mp h2.symm
  subst hs
  refine ⟨rfl, fun hd => ?_⟩
  simpa [osblockArchOf] using Nat.div_mul_cancel hd

/-- C3 (witness): the standard OSBlock(64, 256) configuration. -/
theorem C3_witness :
    (osblockArchOf 64 256 4 false).mid = 256 / 4 ∧
    (4 ∣ 256 → (osblockArchOf 64 256 4 false).mid * 4 = 256) :=
  C3_osblock_init_floor_division 64 256 4 false (osblockArchOf 64 256 4 false) rfl

/-- C3 (counterexample): OSBlock(8, 10) with the default reduction 4
constructs successfully although 4 does not divide 10, and its
mid_channels is the floor value 2, so 2 * 4 is not 10: construction
with a non-exact bottleneck division is not an error, and
mid_channels is not an exact quotient. -/
theorem C3_counterexample :
    osblockInit 8 10 false 4 = Except.ok (osblockArchOf 8 10 4 false) ∧
    (osblockArchOf 8 10 4 false).mid = 2 ∧ ¬ (4 ∣ 10) ∧
    (osblockArchOf 8 10 4 false).mid * 4 ≠ 10 :=
  ⟨rfl, rfl, by decide, by decide⟩

/-- C8: ChannelGate construction fails immediately (with the
RuntimeError message of the source) on every activation string other
than sigmoid, relu and linear; those three construct successfully,
and the gate built from "linear" stores no activation, so its forward
pass never consults the substrate activation functions. -/
theorem C8_gate_activation_parsing (c reduction : Nat)
    (fc1 : Vec c → Vec (c / reduction))
    (n1 : Vec (c / reduction) → Vec (c / reduction))
    (fc2 : Vec (c / reduction) → Vec c) (rg ln : Bool) (s : String)
    (hs1 : s ≠ "sigmoid") (hs2 : s ≠ "relu") (hs3 : s ≠ "linear") :
    channelGateInit reduction fc1 n1 fc2 rg ln s =
      Except.error ("Unknown gate activation: " ++ s) ∧
    (∃ g, channelGateInit reduction fc1 n1 fc2 rg ln "sigmoid" = Except.ok g ∧
      g.gate_activation = some ActFn.sigmoid) ∧
    (∃ g, channelGateInit reduction fc1 n1 fc2 rg ln "relu" = Except.ok g ∧
      g.gate_activation = some ActFn.relu) ∧
    (∃ g, channelGateInit reduction fc1 n1 fc2 rg ln "linear" = Except.ok g ∧
      g.gate_activation = none ∧
      ∀ tor tor2 : Torch, ∀ x : Chw c,
        channelGateForward tor g x = channelGateForward tor2 g x) := by
  refine ⟨by simp [channelGateInit, hs1, hs2, hs3], ⟨_, rfl, rfl⟩,
    ⟨_, rfl, rfl⟩, ⟨_, rfl, rfl, fun tor tor2 x => rfl⟩⟩

/-- C8 (witness): the unrecognized string "tanh" is rejected at
construction with the error message of the source. -/
theorem C8_witness :
    channelGateInit 16 gateFc1W gateNorm1W gateFc2W false false "tanh" =
      Except.error ("Unknown gate activation: " ++ "tanh") :=
  (C8_gate_activation_parsing 16 16 gateFc1W gateNorm1W gateFc2W false false
    "tanh" (by decide) (by decide) (by decide)).1

/-- C2 (amended): OSBlock.forward gates each of the four branch
outputs and sums the gated results additively, exactly as the
independent-gate block would — but with all four per-branch gates
tied to the one shared ChannelGate self.gate. -/
theorem C2_shared_gate_additive_fusion (tor : Torch) (cin cout mid : Nat)
    (m : OSBlockM cin cout mid) (x : Chw cin) :
    osblockForward tor m x = osblockForwardIndep tor (tieGates m) x := rfl

/-- C2 (counterexample): the gates of the four branches are not
independent parameters: no OSBlock realizes a gate quadruple whose
second branch gate (scaling by 2) behaves differently from the first
(scaling by 1), because forward applies the single field self.gate to
every branch. -/
theorem C2_counterexample : ¬ gatesIndependent 1 1 1 := by
  intro h
  obtain ⟨m, hm⟩ := h (gateConst1 1, gateConst1 2, gateConst1 1, gateConst1 1)
  have h1 : m.gate = gateConst1 1 := congrArg (fun t => t.1) hm
  have h2 : m.gate = gateConst1 2 := congrArg (fun t => t.2.1) hm
  have h12 : gateConst1 1 = gateConst1 2 := h1.symm.trans h2
  have hfwd : channelGateForward torC (gateConst1 1) xC1 =
      channelGateForward torC (gateConst1 2) xC1 := by rw [h12]
  have hL : (channelGateForward torC (gateConst1 1) xC1).val = [[[1]]] := by
    simp [channelGateForward, gateConst1, scaleChannels, xC1, litChw, reluVec,
      vmap, gap, torC]
  have hR : (channelGateForward torC (gateConst1 2) xC1).val = [[[2]]] := by
    simp [channelGateForward, gateConst1, scaleChannels, xC1, litChw, reluVec,
      vmap, gap, torC]
  have : ([[[(1 : ℚ)]]] : List (List (List ℚ))) = [[[2]]] := by
    rw [← hL, ← hR, hfwd]
  norm_num at this

/-- C4 (amended): the final ReLU of OSBlock.forward receives the
residual sum after the optional instance normalization, not before:
forward returns (ReLU(IN?(x3 + identity)), x2); only when no IN is
configured is the raw residual sum what ReLU receives.  The gated
pre-projection sum x2 is returned as the second output. -/
theorem C4_relu_after_instance_norm (tor : Torch) (cin cout mid : Nat)
    (m : OSBlockM cin cout mid) (x : Chw cin) :
    osblockForward tor m x =
      (reluChw (applyIN m.IN (osblockPreIN tor m x)), osblockFused tor m x) ∧
    (m.IN = none →
      (osblockForward tor m x).1 = reluChw (osblockPreIN tor m x)) := by
  refine ⟨rfl, fun hIN => ?_⟩
  have h1 : osblockForward tor m x =
      (reluChw (applyIN m.IN (osblockPreIN tor m x)), osblockFused tor m x) := rfl
  rw [h1, hIN]
  rfl

/-- C4 (witness): a block without instance normalization, where the
pre-IN residual sum is exactly what ReLU receives. -/
theorem C4_witness :
    (osblockForward torC mOSB1 xC1).1 = reluChw (osblockPreIN torC mOSB1 xC1) :=
  (C4_relu_after_instance_norm torC 1 1 1 mOSB1 xC1).2 rfl

/-- C4 (counterexample): on a block whose IN module maps everything
to the constant -1 tensor, forward outputs ReLU(-1) = 0 while ReLU of
the pre-IN residual sum is 5: the "out" value before the IN step is
not what receives ReLU.  The second output x2 is still the fused sum. -/
theorem C4_counterexample :
    ((osblockForward torC mC4ce xC1).1).val ≠
      (reluChw (osblockPreIN torC mC4ce xC1)).val ∧
    (osblockForward torC mC4ce xC1).2 = osblockFused torC mC4ce xC1 := by
  refine ⟨?_, rfl⟩
  have hF : ((osblockForward torC mC4ce xC1).1).val = [[[0]]] := by
    simp [osblockForward, mC4ce, applyIN, reluChw, reluQ, litChw]
  have hP : (reluChw (osblockPreIN torC mC4ce xC1)).val = [[[5]]] := by
    simp [osblockPreIN, osblockFused, residualIdentity, mC4ce, gateConst1,
      channelGateForward, scaleChannels, addChw, reluChw, reluQ, xC1, litChw,
      reluVec, vmap, gap, torC]
    norm_num
  rw [hF, hP]
  norm_num

/-- C1 (amended): in evaluation mode, forward returns exactly the
descriptor obtained by pooling the four maps, batch-normalizing each
with its head normalization, L2-normalizing each vector and
concatenating along the feature axis — and that descriptor is
800-dimensional (512 + 64 + 96 + 128), the sole inference output. -/
theorem C1_eval_descriptor_concat (nc : Nat) (tor : Torch) (m : OSNetM nc)
    (x : Chw 3) :
    osnetForward tor m false x false =
      Except.ok (OSNetOut.evalDesc (osnetEvalDescriptor tor m x)) ∧
    (osnetEvalDescriptor tor m x).val.length = 800 := by
  refine ⟨rfl, ?_⟩
  have h := (osnetEvalDescriptor tor m x).prop
  rw [h]

/-- C1 (counterexample): on a concrete network and input, the
inference output is the 800-dimensional concatenated descriptor, not
an 832-dimensional one. -/
theorem C1_counterexample :
    osnetForward torC mC false xC3 false =
      Except.ok (OSNetOut.evalDesc (osnetEvalDescriptor torC mC xC3)) ∧
    (osnetEvalDescriptor torC mC xC3).val.length = 800 ∧
    (osnetEvalDescriptor torC mC xC3).val.length ≠ 832 := by
  have h := (osnetEvalDescriptor torC mC xC3).prop
  refine ⟨rfl, by rw [h], ?_⟩
  rw [h]
  omega

/-- C9: in training mode with loss mode triplet, forward returns the
four logits computed by the classifiers from the batch-normalized
pooled vectors, together with the four pooled vectors captured before
the per-head 1D batch normalization (the list v_ of line 395). -/
theorem C9_triplet_features_pre_bn (nc : Nat) (tor : Torch) (m : OSNetM nc)
    (x : Chw 3) (hl : m.loss = "triplet") :
    osnetForward tor m true x false =
      Except.ok (OSNetOut.tripletOut
        (m.classifier (m.bn (gap (osnetFeaturemaps tor m x).1)),
         m.classifier_a (m.bn_a (gap (osnetFeaturemaps tor m x).2.1)),
         m.classifier_b (m.bn_b (gap (osnetFeaturemaps tor m x).2.2.1)),
         m.classifier_c (m.bn_c (gap (osnetFeaturemaps tor m x).2.2.2)))
        (gap (osnetFeaturemaps tor m x).1,
         gap (osnetFeaturemaps tor m x).2.1,
         gap (osnetFeaturemaps tor m x).2.2.1,
         gap (osnetFeaturemaps tor m x).2.2.2)) := by
  simp [osnetForward, hl]

/-- C9 (witness): the concrete triplet-mode network. -/
theorem C9_witness :
    osnetForward torC mC true xC3 false =
      Except.ok (OSNetOut.tripletOut
        (mC.classifier (mC.bn (gap (osnetFeaturemaps torC mC xC3).1)),
         mC.classifier_a (mC.bn_a (gap (osnetFeaturemaps torC mC xC3).2.1)),
         mC.classifier_b (mC.bn_b (gap (osnetFeaturemaps torC mC xC3).2.2.1)),
         mC.classifier_c (mC.bn_c (gap (osnetFeaturemaps torC mC xC3).2.2.2)))
        (gap (osnetFeaturemaps torC mC xC3).1,
         gap (osnetFeaturemaps torC mC xC3).2.1,
         gap (osnetFeaturemaps torC mC xC3).2.2.1,
         gap (osnetFeaturemaps torC mC xC3).2.2.2)) :=
  C9_triplet_features_pre_bn 1 torC mC xC3 rfl

/-- Shape of any successful OSNet construction: the assertions
passed, channels[0] and channels[3] exist, and the architecture is
osnetArchOf of just num_classes, channels[0], channels[3], loss, IN. -/
theorem osnetInitArch_ok_shape {α : Type} (nc : Nat) (blocks : List α)
    (layers channels : List Nat) (loss : String) (useIN : Bool)
    (A : OSNetArch)
    (h : osnetInitArch nc blocks layers channels loss useIN = Except.ok A) :
    ∃ c0 c3, channels.get? 0 = some c0 ∧ channels.get? 3 = some c3 ∧
      A = osnetArchOf nc c0 c3 loss useIN := by
  unfold osnetInitArch at h
  split at h
  · exact absurd h (by simp)
  · split at h
    · exact absurd h (by simp)
    · obtain _ | ⟨a, _ | ⟨b, _ | ⟨c, _ | ⟨d, t⟩⟩⟩⟩ := channels
      · simp [pyItem] at h
      · simp [pyItem] at h
      · simp [pyItem] at h
      · simp [pyItem] at h
      · simp only [pyItem] at h
        refine ⟨a, d, rfl, rfl, ?_⟩
        exact ((Except.ok.injEq _ _).mp h).symm

/-- C10: two-run noninterference of the OSNet constructor — any two
argument choices that pass the length assertions and agree on
channels[0] and channels[3] construct identical architectures (and
hence the same forward function); the auxiliary tap widths are the
fixed 64, 96, 128 regardless of the arguments. -/
theorem C10_arch_noninterference {α β : Type} (num_classes : Nat)
    (b1 : List α) (b2 : List β) (l1 l2 c1 c2 : List Nat) (loss : String)
    (useIN : Bool) (A1 A2 : OSNetArch)
    (h1 : osnetInitArch num_classes b1 l1 c1 loss useIN = Except.ok A1)
    (h2 : osnetInitArch num_classes b2 l2 c2 loss useIN = Except.ok A2)
    (h0 : c1.get? 0 = c2.get? 0) (h3 : c1.get? 3 = c2.get? 3) :
    A1 = A2 ∧ A1.conv_a = (64, 64) ∧ A1.conv_b = (96, 96) ∧
      A1.conv_c = (128, 128) ∧ A1.bn_a = 64 ∧ A1.bn_b = 96 ∧ A1.bn_c = 128 := by
  obtain ⟨c0, c3, hg0, hg3, hA1⟩ :=
    osnetInitArch_ok_shape num_classes b1 l1 c1 loss useIN A1 h1
  obtain ⟨d0, d3, hg0b, hg3b, hA2⟩ :=
    osnetInitArch_ok_shape num_classes b2 l2 c2 loss useIN A2 h2
  have e0 : c0 = d0 := by
    rw [hg0, hg0b] at h0
    exact Option.some.inj h0
  have e3 : c3 = d3 := by
    rw [hg3, hg3b] at h3
    exact Option.some.inj h3
  subst hA1 hA2 e0 e3
  exact ⟨rfl, rfl, rfl, rfl, rfl, rfl, rfl⟩

/-- C10 (witness): two constructions differing in blocks (even in
their element type), layers, channels[1] and channels[2] yield the
same architecture. -/
theorem C10_witness :
    osnetArchOf 10 64 512 "softmax" false = osnetArchOf 10 64 512 "softmax" false ∧
    (osnetArchOf 10 64 512 "softmax" false).conv_a = (64, 64) ∧
    (osnetArchOf 10 64 512 "softmax" false).conv_b = (96, 96) ∧
    (osnetArchOf 10 64 512 "softmax" false).conv_c = (128, 128) ∧
    (osnetArchOf 10 64 512 "softmax" false).bn_a = 64 ∧
    (osnetArchOf 10 64 512 "softmax" false).bn_b = 96 ∧
    (osnetArchOf 10 64 512 "softmax" false).bn_c = 128 :=
  C10_arch_noninterference 10 [0, 1, 2] ["x", "y", "z"] [2, 2, 2] [5, 6, 7]
    [64, 256, 384, 512] [64, 1, 2, 512] "softmax" false
    (osnetArchOf 10 64 512 "softmax" false) (osnetArchOf 10 64 512 "softmax" false)
    rfl rfl rfl rfl

/-- C5: the optimized batch loss of an engine built by __init__ is
the fixed linear combination weight_t * triplet + weight_x *
crossentropy + weight_c * center_sum; with weight_c = 0 the center
criteria are never constructed (the center field is none) and the
total is exactly weight_t * loss_t + weight_x * loss_x. -/
theorem C5_loss_linear_combination (nc : Nat) (π : Type) (np : Nat)
    (margin wt wx wc : ℚ) (ls : Bool)
    (mkT : ℚ → Feat4 → π → ℚ) (mkX : Nat → Bool → Out4 nc → π → ℚ)
    (mkC : (n : Nat) → Nat → Vec n → π → ℚ)
    (outputs : Out4 nc) (features : Feat4) (pids : π) :
    trainBatchLoss (engineInit nc π np margin wt wx wc ls mkT mkX mkC)
        outputs features pids =
      Except.ok (wt * mkT margin features pids + wx * mkX np ls outputs pids +
        wc * (if wc ≠ 0 then
          mkC 512 np features.1 pids + mkC 64 np features.2.1 pids +
            mkC 96 np features.2.2.1 pids + mkC 128 np features.2.2.2 pids
          else 0)) ∧
    (wc = 0 →
      (engineInit nc π np margin wt wx wc ls mkT mkX mkC).center = none ∧
      trainBatchLoss (engineInit nc π np margin wt wx wc ls mkT mkX mkC)
          outputs features pids =
        Except.ok (wt * mkT margin features pids +
          wx * mkX np ls outputs pids)) := by
  constructor
  · by_cases hwc : wc = 0
    · subst hwc
      simp [trainBatchLoss, engineInit, computeLoss]
    · simp [trainBatchLoss, engineInit, computeLoss, hwc]
  · intro h0
    subst h0
    exact ⟨by simp [engineInit], by simp [trainBatchLoss, engineInit, computeLoss]⟩

/-- C5 (witness): a concrete engine with weight_c = 0 — the center
criteria are absent and the total is weight_t * loss_t + weight_x *
loss_x exactly. -/
theorem C5_witness :
    (engineInit 0 Unit 5 (3 / 10) 1 1 0 true mkTripletW mkCrossW mkCenterW).center =
      none ∧
    trainBatchLoss (engineInit 0 Unit 5 (3 / 10) 1 1 0 true mkTripletW mkCrossW
        mkCenterW) out0W feat0W () =
      Except.ok ((1 : ℚ) * 2 + 1 * 3) :=
  (C5_loss_linear_combination 0 Unit 5 (3 / 10) 1 1 0 true mkTripletW mkCrossW
    mkCenterW out0W feat0W ()).2 rfl

/-- C6 (amended): the freezing step triggers when the epoch is inside
the fixbase window and open_layers is configured (is not None —
whether or not the set is empty): then exactly the named layers are
trainable; in every other case all layers are trainable. -/
theorem C6_fixbase_freeze_condition (epoch fixbase : Nat) (ol : List String)
    (layers : List String) :
    (epoch + 1 ≤ fixbase →
      epochFreeze epoch fixbase (some ol) layers = openSpecifiedLayers layers ol) ∧
    (fixbase ≤ epoch →
      epochFreeze epoch fixbase (some ol) layers = openAllLayers layers) ∧
    epochFreeze epoch fixbase none layers = openAllLayers layers ∧
    (∀ l, (l, true) ∈ openSpecifiedLayers layers ol ↔ l ∈ layers ∧ l ∈ ol) ∧
    (∀ l, (l, true) ∈ openAllLayers layers ↔ l ∈ layers) := by
  refine ⟨fun h => ?_, fun h => ?_, ?_, fun l => ?_, fun l => ?_⟩
  · simp [epochFreeze, h]
  · have hn : ¬ (epoch + 1 ≤ fixbase) := by omega
    simp [epochFreeze, hn]
  · simp [epochFreeze]
  · simp [openSpecifiedLayers, List.mem_map]
    constructor
    · rintro ⟨a, ha, haeq, hat⟩
      exact ⟨haeq ▸ ha, haeq ▸ hat⟩
    · rintro ⟨hl, hlo⟩
      exact ⟨l, hl, rfl, hlo⟩
  · simp [openAllLayers, List.mem_map]

/-- C6 (witness): fixbase_epoch 2 with open_layers [classifier] at
epoch 0 freezes everything but the classifier. -/
theorem C6_witness :
    epochFreeze 0 2 (some ["classifier"]) ["backbone", "classifier"] =
      openSpecifiedLayers ["backbone", "classifier"] ["classifier"] :=
  (C6_fixbase_freeze_condition 0 2 ["classifier"] ["backbone", "classifier"]).1
    (by decide)

/-- C6 (counterexample): an empty — hence not non-empty — configured
open-layer set still triggers freezing: at epoch 0 with
fixbase_epoch 1 and open_layers = [] every layer is frozen, not
trainable as the otherwise branch of the claim states. -/
theorem C6_counterexample :
    epochFreeze 0 1 (some []) ["conv1"] = [("conv1", false)] ∧
    epochFreeze 0 1 (some []) ["conv1"] ≠ openAllLayers ["conv1"] := by
  constructor
  · rfl
  · decide

/-- C7 (amended): whenever a writer is configured, the scalar metrics
are emitted on every batch (not only every print_freq batches),
keyed by the iteration counter epoch * num_batches + batch_idx,
which increases strictly within an epoch and across epoch
boundaries; the progress line remains gated on print_freq. -/
theorem C7_writer_emission (epoch num_batches print_freq batch_idx : Nat) :
    (batchLog true epoch num_batches print_freq batch_idx).writerKeys =
      [nIter epoch num_batches batch_idx] ∧
    (batchLog false epoch num_batches print_freq batch_idx).writerKeys = [] ∧
    (batchLog true epoch num_batches print_freq batch_idx).progress =
      ((batch_idx + 1) % print_freq == 0) ∧
    (epochLog true epoch num_batches print_freq).length = num_batches ∧
    nIter epoch num_batches batch_idx <
      nIter epoch num_batches (batch_idx + 1) ∧
    (batch_idx < num_batches →
      ∀ j, nIter epoch num_batches batch_idx < nIter (epoch + 1) num_batches j) := by
  refine ⟨rfl, rfl, rfl, by simp [epochLog], by simp [nIter], fun h j => ?_⟩
  simp only [nIter, Nat.succ_mul]
  omega

/-- C7 (witness): batch 0 of a 5-batch epoch with print_freq 10
emits its metrics at key 0, and the counter increases into the next
epoch. -/
theorem C7_witness :
    (batchLog true 0 5 10 0).writerKeys = [nIter 0 5 0] ∧
    nIter 0 5 0 < nIter 1 5 0 :=
  ⟨(C7_writer_emission 0 5 10 0).1,
    (C7_writer_emission 0 5 10 0).2.2.2.2.2 (by decide) 0⟩

/-- C7 (counterexample): with print_freq 10 and a 3-batch epoch, no
batch prints a progress line, yet the writer receives metrics at
every one of the three batches — emission is per batch, not every
print_freq batches together with the progress line. -/
theorem C7_counterexample :
    (epochLog true 0 3 10).map BatchLog.progress = [false, false, false] ∧
    (epochLog true 0 3 10).map BatchLog.writerKeys = [[0], [1], [2]] ∧
    (batchLog true 0 3 10 0).writerKeys ≠ [] ∧
    (batchLog true 0 3 10 0).progress = false := by
  refine ⟨?_, ?_, ?_, rfl⟩ <;> decide

end PFH
